import Mathlib

/-!
Shallow embedding of the session service of
`gear-foundation/signless-gasless-session-service`, translated from
`src/session-service/src/macros.rs` (the typed-`Result` variant of the
`generate_session_system!` macro, which the other variant in
`src/app/src/session_generaion.rs` duplicates in an abort-on-error style).

Modelling conventions:
* `ActorId` (a 32-byte Gear account id) is a natural number `< 2^256`; its
  32-byte representation (used both for SCALE encoding and for
  `PublicKey::from_bytes`) is little-endian `toBytesLE 32`.
* machine integers are `Nat` with an explicit `% 2^64` / `% 2^32` where the
  Rust u64/u32 arithmetic can overflow (release-profile wrapping semantics).
* the session `HashMap<ActorId, SessionData>` is a function
  `ActorId → Option (SessionData A)`.
* the macro is generic over the actions enum; the embedding is generic over a
  type `A` together with its SCALE encoding `encA : A → List Nat`.  The
  concrete instance `ActionsForSession` from `src/app/src/lib.rs` /
  `src/example/app/src/lib.rs` is used for concrete evaluations.
* the external host facilities (`msg::source`, `exec::block_timestamp`,
  `exec::block_height`, `exec::program_id`, the fallible
  `msg::send_bytes_with_gas_delayed` and event emission) are inputs collected
  in a `Ctx`; the external `schnorrkel` crate (signature/public-key parsing
  and `verify_simple`) is an abstract `CryptoEnv`.  Everything that lives in
  this repository — validation order, payload construction, error mapping,
  store mutation — is translated concretely.
-/

namespace SessionService

/-- Gear `ActorId`, a 32-byte account identifier, as its numeric value. -/
abbrev ActorId : Type := Nat

/-- `Config` from `macros.rs`: set at program initialization. -/
structure Config where
  gas_to_delete_session : Nat
  minimum_session_duration_ms : Nat
  ms_per_block : Nat
deriving DecidableEq, Repr

/-- `SessionData` from `macros.rs`: the stored session record.
`key` is the delegate account allowed to act for the owner. -/
structure SessionData (A : Type) where
  key : ActorId
  expires : Nat
  allowed_actions : List A
  expires_at_block : Nat
deriving DecidableEq, Repr

/-- `SignatureData` from `macros.rs`: the create-session request body. -/
structure SignatureData (A : Type) where
  key : ActorId
  duration : Nat
  allowed_actions : List A
deriving DecidableEq, Repr

/-- `SessionError` from `macros.rs`, names kept verbatim. -/
inductive SessionError where
  | BadSignature
  | BadPublicKey
  | VerificationFailed
  | DurationIsSmall
  | DurationIsLarge
  | ThereAreNoAllowedMessages
  | MessageOnlyForProgram
  | TooEarlyToDeleteSession
  | NoSession
  | AlreadyHaveActiveSession
  | SendMessageFailed
  | EmitEventFailed
deriving DecidableEq, Repr

/-- `SessionEvent` from `macros.rs`. -/
inductive SessionEvent where
  | SessionCreated
  | SessionDeleted
deriving DecidableEq, Repr

/-- The session store `HashMap<ActorId, SessionData>` as a keyed lookup. -/
abbrev SessionMap (A : Type) : Type := ActorId → Option (SessionData A)

/-- `Storage` from `macros.rs`: the sessions map plus the immutable config. -/
structure Storage (A : Type) where
  sessions : SessionMap A
  config : Config

/-- Host-environment inputs of one message execution: caller, clock values,
the program's own id, and whether the two fallible host calls
(`msg::send_bytes_with_gas_delayed`, event emission) succeed. -/
structure Ctx where
  msg_source : ActorId
  block_timestamp : Nat
  block_height : Nat
  program_id : ActorId
  sendOk : Bool
  emitOk : Bool
deriving DecidableEq, Repr

/-- Abstract model of the external `schnorrkel` crate:
`sigParses b` — `Signature::from_bytes(b)` succeeds;
`pkParses b` — `PublicKey::from_bytes(b)` succeeds;
`verifyOk pk signingCtx msg sig` — `pk.verify_simple(signingCtx, msg, sig)`
succeeds. -/
structure CryptoEnv where
  sigParses : List Nat → Bool
  pkParses : List Nat → Bool
  verifyOk : List Nat → List Nat → List Nat → List Nat → Bool

/-- One delayed message handed to `msg::send_bytes_with_gas_delayed`. -/
structure SentMessage where
  dest : ActorId
  payload : List Nat
  gas : Nat
  value : Nat
  delay : Nat
deriving DecidableEq, Repr

/-- Result of one service call: the returned `Result`, the storage after the
call, the events actually emitted, and the delayed messages actually sent. -/
structure OpOut (A : Type) where
  result : Except SessionError Unit
  storage : Storage A
  events : List SessionEvent
  sent : List SentMessage

/-! ### Byte-level encodings (SCALE) -/

/-- Little-endian byte representation of `n` on `w` bytes. -/
def toBytesLE : Nat → Nat → List Nat
  | 0, _ => []
  | w + 1, n => n % 256 :: toBytesLE w (n / 256)

/-- SCALE compact encoding of an unsigned integer (used for `Vec`/`String`
length prefixes). -/
def compactEncode (n : Nat) : List Nat :=
  if n < 64 then [4 * n]
  else if n < 16384 then toBytesLE 2 (4 * n + 1)
  else if n < 1073741824 then toBytesLE 4 (4 * n + 2)
  else
    let k := Nat.log 256 n + 1
    (4 * (k - 4) + 3) :: toBytesLE k n

/-- The ASCII bytes of the fixed payload opener `<Bytes>`. -/
def bytesOpen : List Nat := [60, 66, 121, 116, 101, 115, 62]

/-- The ASCII bytes of the fixed payload closer `</Bytes>`. -/
def bytesClose : List Nat := [60, 47, 66, 121, 116, 101, 115, 62]

/-- The ASCII bytes of the fixed signing context `substrate` passed to
`verify_simple`. -/
def substrateBytes : List Nat := [115, 117, 98, 115, 116, 114, 97, 116, 101]

/-- SCALE encoding of the string `Session` (7 ASCII bytes, compact-length
prefixed), the first component of the self-cleanup request. -/
def sessionRouteBytes : List Nat :=
  compactEncode 7 ++ [83, 101, 115, 115, 105, 111, 110]

/-- SCALE encoding of the string `DeleteSessionFromProgram` (24 ASCII bytes,
compact-length prefixed), the second component of the self-cleanup request. -/
def deleteRouteBytes : List Nat :=
  compactEncode 24 ++
    [68, 101, 108, 101, 116, 101, 83, 101, 115, 115, 105, 111, 110,
     70, 114, 111, 109, 80, 114, 111, 103, 114, 97, 109]

/-- SCALE encoding of a `SignatureData` value: 32 raw key bytes, the u64
duration, then the compact-length-prefixed actions vector. -/
def encodeSignatureData {A : Type} (encA : A → List Nat)
    (sd : SignatureData A) : List Nat :=
  toBytesLE 32 sd.key ++ toBytesLE 8 sd.duration ++
    compactEncode sd.allowed_actions.length ++
    (sd.allowed_actions.map encA).flatten

/-- The complete signed payload built in `create_session`:
`<Bytes>` ++ SCALE(`SignatureData` with `key` replaced by the caller) ++
`</Bytes>`. -/
def completeMessage {A : Type} (encA : A → List Nat) (msg_source : ActorId)
    (sd : SignatureData A) : List Nat :=
  bytesOpen ++
    encodeSignatureData encA
      { key := msg_source, duration := sd.duration,
        allowed_actions := sd.allowed_actions } ++
    bytesClose

/-- The request bytes of the delayed self-cleanup message built in
`create_session`. -/
def deleteRequest (account : ActorId) : List Nat :=
  sessionRouteBytes ++ deleteRouteBytes ++ toBytesLE 32 account

/-! ### Session map operations -/

/-- `HashMap::entry(k).insert(v)`: insert or overwrite. -/
def insertSession {A : Type} (m : SessionMap A) (k : ActorId)
    (v : SessionData A) : SessionMap A :=
  fun a => if a = k then some v else m a

/-- `HashMap::remove(k)`: the removed value (if any) and the map without the
key. -/
def removeGet {A : Type} (m : SessionMap A) (k : ActorId) :
    Option (SessionData A) × SessionMap A :=
  (m k, fun a => if a = k then none else m a)

/-! ### The service functions -/

/-- Rust `u64::div_ceil`: `self / rhs`, rounded up (for `rhs > 0`). -/
def rustDivCeil (a b : Nat) : Nat :=
  a / b + (if a % b = 0 then 0 else 1)

/-- `verify` from `macros.rs`: parse the signature bytes (else
`BadSignature`), parse the public-key bytes (else `BadPublicKey`), then run
`verify_simple` with the `substrate` signing context (else
`VerificationFailed`). -/
def verify (env : CryptoEnv) (signature : List Nat) (message : List Nat)
    (pubkey : List Nat) : Except SessionError Unit :=
  if env.sigParses signature = false then .error .BadSignature
  else if env.pkParses pubkey = false then .error .BadPublicKey
  else if env.verifyOk pubkey substrateBytes message signature then .ok ()
  else .error .VerificationFailed

/-- `check_if_session_exists` from `macros.rs`: error iff the stored entry
for `account` has `expires_at_block > block_height`. -/
def check_if_session_exists {A : Type} (session_map : SessionMap A)
    (block_height : Nat) (account : ActorId) : Except SessionError Unit :=
  match session_map account with
  | some sd =>
      if sd.expires_at_block > block_height then
        .error .AlreadyHaveActiveSession
      else .ok ()
  | none => .ok ()

/-- The owner under which `create_session` stores the session: the request's
`key` when a signature is supplied, the caller otherwise. -/
def createOwner {A : Type} (sd : SignatureData A) (signature : Option (List Nat))
    (ctx : Ctx) : ActorId :=
  match signature with
  | some _ => sd.key
  | none => ctx.msg_source

/-- The `SessionData` record that `create_session` inserts (the stored
delegate `key` is the caller in the signature branch and the request's `key`
otherwise; both expiry fields use wrapping machine arithmetic). -/
def createdSession {A : Type} (cfg : Config) (sd : SignatureData A)
    (signature : Option (List Nat)) (ctx : Ctx) : SessionData A :=
  { key := match signature with
           | some _ => ctx.msg_source
           | none => sd.key,
    expires := (ctx.block_timestamp + sd.duration) % 2 ^ 64,
    allowed_actions := sd.allowed_actions,
    expires_at_block :=
      (ctx.block_height + rustDivCeil sd.duration cfg.ms_per_block) % 2 ^ 32 }

/-- `create_session` from `macros.rs`, translated control path by control
path: duration-minimum check, `u32::try_from(div_ceil)` overflow check,
empty-actions check, then the signature / no-signature branch (duplicate
check, verification, overwrite-insert), then the delayed self-cleanup send
and the event emission. -/
def create_session {A : Type} (env : CryptoEnv) (encA : A → List Nat)
    (st : Storage A) (signature_data : SignatureData A)
    (signature : Option (List Nat)) (ctx : Ctx) : OpOut A :=
  if signature_data.duration < st.config.minimum_session_duration_ms then
    ⟨.error .DurationIsSmall, st, [], []⟩
  else
    let number_of_blocks :=
      rustDivCeil signature_data.duration st.config.ms_per_block
    if 2 ^ 32 ≤ number_of_blocks then ⟨.error .DurationIsLarge, st, [], []⟩
    else if signature_data.allowed_actions.isEmpty then
      ⟨.error .ThereAreNoAllowedMessages, st, [], []⟩
    else
      let afterInsert : Except SessionError (SessionMap A × ActorId) :=
        match signature with
        | some sig_bytes =>
            match check_if_session_exists st.sessions ctx.block_height
                signature_data.key with
            | .error e => .error e
            | .ok _ =>
                match verify env sig_bytes
                    (completeMessage encA ctx.msg_source signature_data)
                    (toBytesLE 32 signature_data.key) with
                | .error e => .error e
                | .ok _ =>
                    .ok (insertSession st.sessions signature_data.key
                          (createdSession st.config signature_data
                            (some sig_bytes) ctx),
                        signature_data.key)
        | none =>
            match check_if_session_exists st.sessions ctx.block_height
                ctx.msg_source with
            | .error e => .error e
            | .ok _ =>
                .ok (insertSession st.sessions ctx.msg_source
                      (createdSession st.config signature_data none ctx),
                    ctx.msg_source)
      match afterInsert with
      | .error e => ⟨.error e, st, [], []⟩
      | .ok (sessions2, account) =>
          let st2 : Storage A := ⟨sessions2, st.config⟩
          if ctx.sendOk = false then
            ⟨.error .SendMessageFailed, st2, [], []⟩
          else
            let sm : SentMessage :=
              ⟨ctx.program_id, deleteRequest account,
                st.config.gas_to_delete_session, 0, number_of_blocks⟩
            if ctx.emitOk = false then
              ⟨.error .EmitEventFailed, st2, [], [sm]⟩
            else ⟨.ok (), st2, [.SessionCreated], [sm]⟩

/-- `delete_session_from_program` from `macros.rs`: require a self-invoked
message, then `HashMap::remove` the entry and — only after the removal — fail
with `TooEarlyToDeleteSession` when the removed entry was still active. -/
def delete_session_from_program {A : Type} (st : Storage A)
    (session_for_account : ActorId) (ctx : Ctx) : OpOut A :=
  if ctx.msg_source ≠ ctx.program_id then
    ⟨.error .MessageOnlyForProgram, st, [], []⟩
  else
    let rg := removeGet st.sessions session_for_account
    match rg.1 with
    | some session =>
        if session.expires_at_block > ctx.block_height then
          ⟨.error .TooEarlyToDeleteSession, ⟨rg.2, st.config⟩, [], []⟩
        else if ctx.emitOk = false then
          ⟨.error .EmitEventFailed, ⟨rg.2, st.config⟩, [], []⟩
        else ⟨.ok (), ⟨rg.2, st.config⟩, [.SessionDeleted], []⟩
    | none =>
        if ctx.emitOk = false then
          ⟨.error .EmitEventFailed, ⟨rg.2, st.config⟩, [], []⟩
        else ⟨.ok (), ⟨rg.2, st.config⟩, [.SessionDeleted], []⟩

/-- `delete_session_from_account` from `macros.rs`: `HashMap::remove` the
caller's entry; `NoSession` when there was none, else emit
`SessionDeleted`. -/
def delete_session_from_account {A : Type} (st : Storage A) (ctx : Ctx) :
    OpOut A :=
  let rg := removeGet st.sessions ctx.msg_source
  match rg.1 with
  | none => ⟨.error .NoSession, ⟨rg.2, st.config⟩, [], []⟩
  | some _ =>
      if ctx.emitOk = false then
        ⟨.error .EmitEventFailed, ⟨rg.2, st.config⟩, [], []⟩
      else ⟨.ok (), ⟨rg.2, st.config⟩, [.SessionDeleted], []⟩

/-- `session_for_the_account` from `macros.rs`: plain lookup. -/
def session_for_the_account {A : Type} (st : Storage A) (account : ActorId) :
    Option (SessionData A) :=
  st.sessions account

/-- The verification stage of `create_session` in isolation: trivially
successful when no signature is supplied, otherwise the `verify` call on the
canonical payload and the 32 key bytes of the request's `key`. -/
def verifyStep {A : Type} (env : CryptoEnv) (encA : A → List Nat)
    (sd : SignatureData A) (signature : Option (List Nat)) (ctx : Ctx) :
    Except SessionError Unit :=
  match signature with
  | none => .ok ()
  | some b =>
      verify env b (completeMessage encA ctx.msg_source sd) (toBytesLE 32 sd.key)

/-- The delayed self-cleanup message that a successful `create_session`
schedules. -/
def cleanupMessage {A : Type} (cfg : Config) (sd : SignatureData A)
    (signature : Option (List Nat)) (ctx : Ctx) : SentMessage :=
  ⟨ctx.program_id, deleteRequest (createOwner sd signature ctx),
    cfg.gas_to_delete_session, 0, rustDivCeil sd.duration cfg.ms_per_block⟩

/-- `ActionsForSession` from `src/app/src/lib.rs` and
`src/example/app/src/lib.rs`: the concrete actions enum the macro is
instantiated with. -/
inductive ActionsForSession where
  | StartGame
  | Move
  | Skip
deriving DecidableEq, Repr

/-- SCALE encoding of `ActionsForSession`: the one-byte variant index. -/
def encActions : ActionsForSession → List Nat
  | .StartGame => [0]
  | .Move => [1]
  | .Skip => [2]

/-- Store states reachable from the empty store by any sequence of the three
mutating service calls (with arbitrary host contexts, request bodies and
signatures), keeping the initial config. -/
inductive Reachable {A : Type} (env : CryptoEnv) (encA : A → List Nat)
    (cfg : Config) : Storage A → Prop where
  | init : Reachable env encA cfg ⟨fun _ => none, cfg⟩
  | create (st : Storage A) (sd : SignatureData A)
      (signature : Option (List Nat)) (ctx : Ctx) :
      Reachable env encA cfg st →
      Reachable env encA cfg (create_session env encA st sd signature ctx).storage
  | delAccount (st : Storage A) (ctx : Ctx) :
      Reachable env encA cfg st →
      Reachable env encA cfg (delete_session_from_account st ctx).storage
  | delProgram (st : Storage A) (acct : ActorId) (ctx : Ctx) :
      Reachable env encA cfg st →
      Reachable env encA cfg (delete_session_from_program st acct ctx).storage

/-! ### Concrete fixtures (the configuration of `src/example/tests/gtest.rs`) -/

/-- The test configuration: gas 10^10, minimum duration 180000 ms, 3000 ms
per block. -/
def exCfg : Config := ⟨10000000000, 180000, 3000⟩

/-- A crypto environment where 64-byte signatures parse, every 32-byte key
parses and every verification succeeds. -/
def exEnv : CryptoEnv :=
  ⟨fun l => decide (l.length = 64), fun _ => true, fun _ _ _ _ => true⟩

/-- A crypto environment where no signature bytes parse. -/
def exEnvBadSig : CryptoEnv := ⟨fun _ => false, fun _ => true, fun _ _ _ _ => true⟩

/-- A crypto environment where no public-key bytes parse. -/
def exEnvBadKey : CryptoEnv := ⟨fun _ => true, fun _ => false, fun _ _ _ _ => true⟩

/-- A crypto environment where parsing succeeds but verification fails. -/
def exEnvNoVerify : CryptoEnv := ⟨fun _ => true, fun _ => true, fun _ _ _ _ => false⟩

/-- The empty store with the test configuration. -/
def emptyStore : Storage ActionsForSession := ⟨fun _ => none, exCfg⟩

/-- A stored session that is still active at block height 10
(`expires_at_block = 60`). -/
def exActive : SessionData ActionsForSession := ⟨2, 1000, [.StartGame], 60⟩

/-- A store holding `exActive` for owner `1`. -/
def stActive : Storage ActionsForSession :=
  ⟨insertSession (fun _ => none) 1 exActive, exCfg⟩

/-- A self-invoked context (`msg_source = program_id = 5`) at height 10. -/
def ctxSelf : Ctx := ⟨5, 0, 10, 5, true, true⟩

/-- A context whose caller is owner `1` at height 10. -/
def ctxCaller1 : Ctx := ⟨1, 0, 10, 5, true, true⟩

/-- A context for caller `7` at height 10 where all host calls succeed. -/
def ctxOk : Ctx := ⟨7, 100, 10, 5, true, true⟩

/-- As `ctxOk` but the delayed send fails. -/
def ctxNoSend : Ctx := ⟨7, 100, 10, 5, false, true⟩

/-- As `ctxOk` but at block height `2^32 - 1`. -/
def ctxWrap : Ctx := ⟨7, 100, 4294967295, 5, true, true⟩

/-- A valid request: delegate key 9, duration 180000 ms, one action. -/
def exSd : SignatureData ActionsForSession := ⟨9, 180000, [.StartGame]⟩

/-- A request with empty actions and duration 0 (below the minimum). -/
def exSdEmpty : SignatureData ActionsForSession := ⟨9, 0, []⟩

/-- A request with empty actions but a valid duration. -/
def exSdEmptyOkDur : SignatureData ActionsForSession := ⟨9, 180000, []⟩

/-! ### Characterization lemmas -/

/-- `create_session` as one case tree: the three shape checks, then the
duplicate check on the determined owner, then the verification stage, then
the insert followed by the send and emit stages. -/
theorem create_session_eq {A : Type} (env : CryptoEnv) (encA : A → List Nat)
    (st : Storage A) (sd : SignatureData A) (sig : Option (List Nat))
    (ctx : Ctx) :
    create_session env encA st sd sig ctx =
      if sd.duration < st.config.minimum_session_duration_ms then
        ⟨.error .DurationIsSmall, st, [], []⟩
      else if 2 ^ 32 ≤ rustDivCeil sd.duration st.config.ms_per_block then
        ⟨.error .DurationIsLarge, st, [], []⟩
      else if sd.allowed_actions.isEmpty then
        ⟨.error .ThereAreNoAllowedMessages, st, [], []⟩
      else
        match check_if_session_exists st.sessions ctx.block_height
            (createOwner sd sig ctx) with
        | .error e => ⟨.error e, st, [], []⟩
        | .ok _ =>
            match verifyStep env encA sd sig ctx with
            | .error e => ⟨.error e, st, [], []⟩
            | .ok _ =>
                if ctx.sendOk = false then
                  ⟨.error .SendMessageFailed,
                    ⟨insertSession st.sessions (createOwner sd sig ctx)
                        (createdSession st.config sd sig ctx), st.config⟩,
                    [], []⟩
                else if ctx.emitOk = false then
                  ⟨.error .EmitEventFailed,
                    ⟨insertSession st.sessions (createOwner sd sig ctx)
                        (createdSession st.config sd sig ctx), st.config⟩,
                    [], [cleanupMessage st.config sd sig ctx]⟩
                else
                  ⟨.ok (),
                    ⟨insertSession st.sessions (createOwner sd sig ctx)
                        (createdSession st.config sd sig ctx), st.config⟩,
                    [.SessionCreated], [cleanupMessage st.config sd sig ctx]⟩ := by
  by_cases h1 : sd.duration < st.config.minimum_session_duration_ms
  · cases sig <;> simp [create_session, h1]
  · by_cases h2 : 4294967296 ≤ rustDivCeil sd.duration st.config.ms_per_block
    · cases sig <;> simp [create_session, h1, h2]
    · by_cases h3 : sd.allowed_actions.isEmpty
      · cases sig <;> simp [create_session, h1, h2, h3]
      · cases sig with
        | none =>
            cases hc : check_if_session_exists st.sessions ctx.block_height
                (createOwner sd none ctx) with
            | error e =>
                simp [create_session, h1, h2, h3, createOwner] at hc ⊢
                simp [hc]
            | ok u =>
                simp [create_session, h1, h2, h3, createOwner, verifyStep,
                  cleanupMessage] at hc ⊢
                simp [hc, createOwner, createdSession]
        | some b =>
            cases hc : check_if_session_exists st.sessions ctx.block_height
                (createOwner sd (some b) ctx) with
            | error e =>
                simp [create_session, h1, h2, h3, createOwner] at hc ⊢
                simp [hc]
            | ok u =>
                cases hv : verify env b
                    (completeMessage encA ctx.msg_source sd)
                    (toBytesLE 32 sd.key) with
                | error e =>
                    simp [create_session, h1, h2, h3, createOwner,
                      verifyStep] at hc ⊢
                    simp [hc, hv]
                | ok v =>
                    simp [create_session, h1, h2, h3, createOwner, verifyStep,
                      cleanupMessage] at hc ⊢
                    simp [hc, hv, createOwner, createdSession]

/-- `check_if_session_exists` can only fail with `AlreadyHaveActiveSession`,
and only when the stored entry is still active. -/
theorem check_error_eq {A : Type} (m : SessionMap A) (h : Nat) (acct : ActorId)
    (e : SessionError) (he : check_if_session_exists m h acct = .error e) :
    e = .AlreadyHaveActiveSession ∧
    ∃ s, m acct = some s ∧ h < s.expires_at_block := by
  unfold check_if_session_exists at he
  cases hm : m acct with
  | none => simp only [hm] at he; cases he
  | some s =>
      simp only [hm] at he
      by_cases hlt : s.expires_at_block > h
      · rw [if_pos hlt] at he
        injection he with he2
        exact ⟨he2.symm, s, rfl, hlt⟩
      · rw [if_neg hlt] at he; cases he

/-- A list with `isEmpty = false` is not `[]`. -/
theorem isEmpty_false_ne_nil {A : Type} (l : List A) (h : l.isEmpty = false) :
    l ≠ [] := by
  cases l with
  | nil => cases h
  | cons x xs => intro hx; cases hx

/-- The sessions map after `create_session`, pointwise: each key either keeps
its previous value or — only for the determined owner, and only when the
actions list was non-empty — holds the freshly created session. -/
theorem create_sessions_cases {A : Type} (env : CryptoEnv) (encA : A → List Nat)
    (st : Storage A) (sd : SignatureData A) (sig : Option (List Nat))
    (ctx : Ctx) (a : ActorId) :
    (create_session env encA st sd sig ctx).storage.sessions a = st.sessions a ∨
    ((create_session env encA st sd sig ctx).storage.sessions a
        = some (createdSession st.config sd sig ctx) ∧
      a = createOwner sd sig ctx ∧ sd.allowed_actions.isEmpty = false) := by
  rw [create_session_eq]
  by_cases h1 : sd.duration < st.config.minimum_session_duration_ms
  · rw [if_pos h1]; exact Or.inl rfl
  rw [if_neg h1]
  by_cases h2 : 2 ^ 32 ≤ rustDivCeil sd.duration st.config.ms_per_block
  · rw [if_pos h2]; exact Or.inl rfl
  rw [if_neg h2]
  by_cases h3 : sd.allowed_actions.isEmpty
  · rw [if_pos h3]; exact Or.inl rfl
  rw [if_neg h3]
  cases hc : check_if_session_exists st.sessions ctx.block_height
      (createOwner sd sig ctx) with
  | error e => exact Or.inl rfl
  | ok u =>
      cases hv : verifyStep env encA sd sig ctx with
      | error e => exact Or.inl rfl
      | ok v =>
          by_cases ha : a = createOwner sd sig ctx
          · refine Or.inr ⟨?_, ha, Bool.not_eq_true _ ▸ h3⟩
            by_cases h6 : ctx.sendOk = false
            · rw [if_pos h6]; simp [insertSession, ha]
            · rw [if_neg h6]
              by_cases h7 : ctx.emitOk = false
              · rw [if_pos h7]; simp [insertSession, ha]
              · rw [if_neg h7]; simp [insertSession, ha]
          · refine Or.inl ?_
            by_cases h6 : ctx.sendOk = false
            · rw [if_pos h6]; simp [insertSession, ha]
            · rw [if_neg h6]
              by_cases h7 : ctx.emitOk = false
              · rw [if_pos h7]; simp [insertSession, ha]
              · rw [if_neg h7]; simp [insertSession, ha]

/-- `create_session` never changes the config. -/
theorem create_config_eq {A : Type} (env : CryptoEnv) (encA : A → List Nat)
    (st : Storage A) (sd : SignatureData A) (sig : Option (List Nat))
    (ctx : Ctx) :
    (create_session env encA st sd sig ctx).storage.config = st.config := by
  rw [create_session_eq]
  by_cases h1 : sd.duration < st.config.minimum_session_duration_ms
  · rw [if_pos h1]
  rw [if_neg h1]
  by_cases h2 : 2 ^ 32 ≤ rustDivCeil sd.duration st.config.ms_per_block
  · rw [if_pos h2]
  rw [if_neg h2]
  by_cases h3 : sd.allowed_actions.isEmpty
  · rw [if_pos h3]
  rw [if_neg h3]
  cases hc : check_if_session_exists st.sessions ctx.block_height
      (createOwner sd sig ctx) with
  | error e => rfl
  | ok u =>
      cases hv : verifyStep env encA sd sig ctx with
      | error e => rfl
      | ok v =>
          by_cases h6 : ctx.sendOk = false
          · rw [if_pos h6]
          · rw [if_neg h6]
            by_cases h7 : ctx.emitOk = false
            · rw [if_pos h7]
            · rw [if_neg h7]

/-- If `create_session` returns `ok`, the post sessions map is exactly the
pre map overwritten at the determined owner with the created session. -/
theorem create_sessions_of_ok {A : Type} (env : CryptoEnv) (encA : A → List Nat)
    (st : Storage A) (sd : SignatureData A) (sig : Option (List Nat))
    (ctx : Ctx)
    (hok : (create_session env encA st sd sig ctx).result = .ok ()) :
    (create_session env encA st sd sig ctx).storage.sessions
      = insertSession st.sessions (createOwner sd sig ctx)
          (createdSession st.config sd sig ctx) := by
  rw [create_session_eq] at hok ⊢
  by_cases h1 : sd.duration < st.config.minimum_session_duration_ms
  · rw [if_pos h1] at hok; cases hok
  rw [if_neg h1] at hok ⊢
  by_cases h2 : 2 ^ 32 ≤ rustDivCeil sd.duration st.config.ms_per_block
  · rw [if_pos h2] at hok; cases hok
  rw [if_neg h2] at hok ⊢
  by_cases h3 : sd.allowed_actions.isEmpty
  · rw [if_pos h3] at hok; cases hok
  rw [if_neg h3] at hok ⊢
  cases hc : check_if_session_exists st.sessions ctx.block_height
      (createOwner sd sig ctx) with
  | error e => simp only [hc] at hok; cases hok
  | ok u =>
      simp only [hc] at hok
      cases hv : verifyStep env encA sd sig ctx with
      | error e => simp only [hv] at hok; cases hok
      | ok v =>
          simp only [hv] at hok
          by_cases h6 : ctx.sendOk = false
          · rw [if_pos h6] at hok; cases hok
          rw [if_neg h6] at hok
          by_cases h7 : ctx.emitOk = false
          · rw [if_pos h7] at hok; cases hok
          simp [h6, h7]

/-- The sessions map after `delete_session_from_account`: the caller's key is
cleared (also on the `NoSession` path, where it was already empty), all other
keys keep their value. -/
theorem delete_account_sessions_eq {A : Type} (st : Storage A) (ctx : Ctx)
    (a : ActorId) :
    (delete_session_from_account st ctx).storage.sessions a
      = if a = ctx.msg_source then none else st.sessions a := by
  unfold delete_session_from_account removeGet
  cases hm : st.sessions ctx.msg_source with
  | none =>
      by_cases ha : a = ctx.msg_source <;> simp [hm, ha]
  | some s =>
      by_cases h7 : ctx.emitOk = false <;> simp [hm, h7]

/-- `delete_session_from_account` never changes the config. -/
theorem delete_account_config_eq {A : Type} (st : Storage A) (ctx : Ctx) :
    (delete_session_from_account st ctx).storage.config = st.config := by
  unfold delete_session_from_account removeGet
  cases hm : st.sessions ctx.msg_source with
  | none => simp [hm]
  | some s =>
      by_cases h7 : ctx.emitOk = false <;> simp [hm, h7]

/-- The sessions map after `delete_session_from_program`: unchanged for a
non-self-invoked call, otherwise the target key is cleared — on the
`TooEarlyToDeleteSession` path included — and all other keys keep their
value. -/
theorem delete_program_sessions_eq {A : Type} (st : Storage A)
    (acct : ActorId) (ctx : Ctx) (a : ActorId) :
    (delete_session_from_program st acct ctx).storage.sessions a
      = if ctx.msg_source = ctx.program_id then
          (if a = acct then none else st.sessions a)
        else st.sessions a := by
  unfold delete_session_from_program removeGet
  by_cases hs : ctx.msg_source = ctx.program_id
  · cases hm : st.sessions acct with
    | none =>
        by_cases h7 : ctx.emitOk = false <;> simp [hs, hm, h7]
    | some s =>
        by_cases hlt : s.expires_at_block > ctx.block_height
        · simp [hs, hm, hlt]
        · by_cases h7 : ctx.emitOk = false <;> simp [hs, hm, hlt, h7]
  · simp [hs]

/-- `delete_session_from_program` never changes the config. -/
theorem delete_program_config_eq {A : Type} (st : Storage A) (acct : ActorId)
    (ctx : Ctx) :
    (delete_session_from_program st acct ctx).storage.config = st.config := by
  unfold delete_session_from_program removeGet
  by_cases hs : ctx.msg_source = ctx.program_id
  · cases hm : st.sessions acct with
    | none =>
        by_cases h7 : ctx.emitOk = false <;> simp [hs, hm, h7]
    | some s =>
        by_cases hlt : s.expires_at_block > ctx.block_height
        · simp [hs, hm, hlt]
        · by_cases h7 : ctx.emitOk = false <;> simp [hs, hm, hlt, h7]
  · simp [hs]

/-! ### Claim theorems -/

/-- Claim C1 (code bug witnessed): with a stored session for owner 1 still
active at height 10 (`expires_at_block = 60`), the self-invoked cleanup
returns `TooEarlyToDeleteSession` as the claim says, but the stored entry has
nevertheless been removed — the source removes before the expiry check and
never re-inserts — contradicting the claimed preservation of the entry. -/
theorem c1_cleanup_removes_active_entry :
    stActive.sessions 1 = some exActive ∧
    ctxSelf.block_height < exActive.expires_at_block ∧
    ctxSelf.msg_source = ctxSelf.program_id ∧
    (delete_session_from_program stActive 1 ctxSelf).result
      = .error .TooEarlyToDeleteSession ∧
    (delete_session_from_program stActive 1 ctxSelf).storage.sessions 1
      = none := by
  exact ⟨rfl, by decide, rfl, rfl, rfl⟩

/-- Claim C6: `delete_session_from_program` rejects every non-self invoker
with `MessageOnlyForProgram` and changes no state; when self-invoked with no
stored session for the owner it succeeds and emits `SessionDeleted`, leaving
every key unchanged; when self-invoked and the owner's session has
`expires_at_block ≤ block_height` it removes the entry and emits
`SessionDeleted`. -/
theorem c6_delete_from_program_contract {A : Type} (st : Storage A)
    (acct : ActorId) (ctx : Ctx) (s : SessionData A) :
    (ctx.msg_source ≠ ctx.program_id →
      (delete_session_from_program st acct ctx).result
        = .error .MessageOnlyForProgram ∧
      (delete_session_from_program st acct ctx).storage.sessions
        = st.sessions ∧
      (delete_session_from_program st acct ctx).events = []) ∧
    (ctx.msg_source = ctx.program_id → ctx.emitOk = true →
      st.sessions acct = none →
      (delete_session_from_program st acct ctx).result = .ok () ∧
      (delete_session_from_program st acct ctx).events = [.SessionDeleted] ∧
      ∀ a, (delete_session_from_program st acct ctx).storage.sessions a
        = st.sessions a) ∧
    (ctx.msg_source = ctx.program_id → ctx.emitOk = true →
      st.sessions acct = some s → s.expires_at_block ≤ ctx.block_height →
      (delete_session_from_program st acct ctx).result = .ok () ∧
      (delete_session_from_program st acct ctx).events = [.SessionDeleted] ∧
      (delete_session_from_program st acct ctx).storage.sessions acct = none ∧
      ∀ a, a ≠ acct →
        (delete_session_from_program st acct ctx).storage.sessions a
          = st.sessions a) := by
  refine ⟨?_, ?_, ?_⟩
  · intro hs
    unfold delete_session_from_program
    rw [if_pos hs]
    exact ⟨rfl, rfl, rfl⟩
  · intro hs hemit hnone
    refine ⟨?_, ?_, ?_⟩
    · unfold delete_session_from_program removeGet
      simp [hs, hemit, hnone]
    · unfold delete_session_from_program removeGet
      simp [hs, hemit, hnone]
    · intro a
      rw [delete_program_sessions_eq, if_pos hs]
      by_cases ha : a = acct
      · rw [if_pos ha, ha, hnone]
      · rw [if_neg ha]
  · intro hs hemit hsome hle
    have hnlt : ¬ s.expires_at_block > ctx.block_height := Nat.not_lt.mpr hle
    refine ⟨?_, ?_, ?_, ?_⟩
    · unfold delete_session_from_program removeGet
      simp [hs, hemit, hsome, hnlt]
    · unfold delete_session_from_program removeGet
      simp [hs, hemit, hsome, hnlt]
    · rw [delete_program_sessions_eq, if_pos hs, if_pos rfl]
    · intro a ha
      rw [delete_program_sessions_eq, if_pos hs, if_neg ha]

/-- Claim C7: `delete_session_from_account` removes the caller's session
unconditionally — any stored `expires_at_block`, active or not — after which
`session_for_the_account` for the caller is `none`; with no stored session it
fails with `NoSession`; on success it emits `SessionDeleted`; other keys are
never touched. -/
theorem c7_delete_from_account_contract {A : Type} (st : Storage A) (ctx : Ctx)
    (s : SessionData A) :
    (st.sessions ctx.msg_source = none →
      (delete_session_from_account st ctx).result = .error .NoSession ∧
      (delete_session_from_account st ctx).events = [] ∧
      ∀ a, (delete_session_from_account st ctx).storage.sessions a
        = st.sessions a) ∧
    (st.sessions ctx.msg_source = some s → ctx.emitOk = true →
      (delete_session_from_account st ctx).result = .ok () ∧
      (delete_session_from_account st ctx).events = [.SessionDeleted] ∧
      session_for_the_account (delete_session_from_account st ctx).storage
        ctx.msg_source = none ∧
      ∀ a, a ≠ ctx.msg_source →
        (delete_session_from_account st ctx).storage.sessions a
          = st.sessions a) := by
  constructor
  · intro hnone
    refine ⟨?_, ?_, ?_⟩
    · unfold delete_session_from_account removeGet
      simp [hnone]
    · unfold delete_session_from_account removeGet
      simp [hnone]
    · intro a
      rw [delete_account_sessions_eq]
      by_cases ha : a = ctx.msg_source
      · rw [if_pos ha, ha, hnone]
      · rw [if_neg ha]
  · intro hsome hemit
    refine ⟨?_, ?_, ?_, ?_⟩
    · unfold delete_session_from_account removeGet
      simp [hsome, hemit]
    · unfold delete_session_from_account removeGet
      simp [hsome, hemit]
    · unfold session_for_the_account
      rw [delete_account_sessions_eq, if_pos rfl]
    · intro a ha
      rw [delete_account_sessions_eq, if_neg ha]

/-- A context whose caller 3 is not the program (id 5). -/
def ctxOther : Ctx := ⟨3, 0, 10, 5, true, true⟩

/-- A stored session already expired at height 10 (`expires_at_block = 5`). -/
def exExpired : SessionData ActionsForSession := ⟨2, 1000, [.StartGame], 5⟩

/-- A store holding the expired `exExpired` for owner 1. -/
def stExpired : Storage ActionsForSession :=
  ⟨insertSession (fun _ => none) 1 exExpired, exCfg⟩

/-- A request with a too-small duration (1000 ms) but valid actions. -/
def exSdShort : SignatureData ActionsForSession := ⟨9, 1000, [.StartGame]⟩

/-- A request whose duration (the 400-year value of the repository's tests)
yields a tick count of exactly `2^32`. -/
def exSdHuge : SignatureData ActionsForSession := ⟨9, 12884901888000, [.StartGame]⟩

/-- Witness for C6 at concrete inputs: an alien caller is rejected, a
self-invoked cleanup of an absent session is a no-op success, and a
self-invoked cleanup of an expired session removes it. -/
theorem c6_delete_from_program_contract_witness :
    ((delete_session_from_program stActive 1 ctxOther).result
        = .error .MessageOnlyForProgram ∧
      (delete_session_from_program stActive 1 ctxOther).storage.sessions
        = stActive.sessions ∧
      (delete_session_from_program stActive 1 ctxOther).events = []) ∧
    ((delete_session_from_program stActive 2 ctxSelf).result = .ok () ∧
      (delete_session_from_program stActive 2 ctxSelf).events
        = [.SessionDeleted] ∧
      ∀ a, (delete_session_from_program stActive 2 ctxSelf).storage.sessions a
        = stActive.sessions a) ∧
    ((delete_session_from_program stExpired 1 ctxSelf).result = .ok () ∧
      (delete_session_from_program stExpired 1 ctxSelf).events
        = [.SessionDeleted] ∧
      (delete_session_from_program stExpired 1 ctxSelf).storage.sessions 1
        = none ∧
      ∀ a, a ≠ 1 →
        (delete_session_from_program stExpired 1 ctxSelf).storage.sessions a
          = stExpired.sessions a) :=
  ⟨(c6_delete_from_program_contract stActive 1 ctxOther exActive).1 (by decide),
   (c6_delete_from_program_contract stActive 2 ctxSelf exActive).2.1 rfl rfl rfl,
   (c6_delete_from_program_contract stExpired 1 ctxSelf exExpired).2.2 rfl rfl
     rfl (by decide)⟩

/-- Witness for C7 at concrete inputs: deleting with no stored session is
`NoSession`; an owner deletes a still-active session and the subsequent
lookup is empty. -/
theorem c7_delete_from_account_contract_witness :
    ((delete_session_from_account emptyStore ctxOk).result
        = .error .NoSession ∧
      (delete_session_from_account emptyStore ctxOk).events = [] ∧
      ∀ a, (delete_session_from_account emptyStore ctxOk).storage.sessions a
        = emptyStore.sessions a) ∧
    ((delete_session_from_account stActive ctxCaller1).result = .ok () ∧
      (delete_session_from_account stActive ctxCaller1).events
        = [.SessionDeleted] ∧
      session_for_the_account
        (delete_session_from_account stActive ctxCaller1).storage
        ctxCaller1.msg_source = none ∧
      ∀ a, a ≠ ctxCaller1.msg_source →
        (delete_session_from_account stActive ctxCaller1).storage.sessions a
          = stActive.sessions a) :=
  ⟨(c7_delete_from_account_contract emptyStore ctxOk exActive).1 rfl,
   (c7_delete_from_account_contract stActive ctxCaller1 exActive).2 rfl rfl⟩

/-- Claim C10: each operation leaves the stored session of every owner other
than the call's single determined owner unchanged — whether the call
succeeds or fails — and no operation ever modifies the config. -/
theorem c10_frame {A : Type} (env : CryptoEnv) (encA : A → List Nat)
    (st : Storage A) (sd : SignatureData A) (sig : Option (List Nat))
    (ctx : Ctx) (acct a : ActorId) :
    (a ≠ createOwner sd sig ctx →
      (create_session env encA st sd sig ctx).storage.sessions a
        = st.sessions a) ∧
    (create_session env encA st sd sig ctx).storage.config = st.config ∧
    (a ≠ ctx.msg_source →
      (delete_session_from_account st ctx).storage.sessions a
        = st.sessions a) ∧
    (delete_session_from_account st ctx).storage.config = st.config ∧
    (a ≠ acct →
      (delete_session_from_program st acct ctx).storage.sessions a
        = st.sessions a) ∧
    (delete_session_from_program st acct ctx).storage.config = st.config := by
  refine ⟨?_, create_config_eq env encA st sd sig ctx, ?_,
    delete_account_config_eq st ctx, ?_, delete_program_config_eq st acct ctx⟩
  · intro ha
    rcases create_sessions_cases env encA st sd sig ctx a with h | ⟨h, hown, hne⟩
    · exact h
    · exact absurd hown ha
  · intro ha
    rw [delete_account_sessions_eq, if_neg ha]
  · intro ha
    rw [delete_program_sessions_eq]
    by_cases hs : ctx.msg_source = ctx.program_id
    · rw [if_pos hs, if_neg ha]
    · rw [if_neg hs]

/-- Witness for C10 at concrete inputs: owner 3 is untouched by a creation
for owner 7, an account-deletion by caller 1 and a self-cleanup for
owner 1. -/
theorem c10_frame_witness :
    ((create_session exEnv encActions stActive exSd none ctxOk).storage.sessions 3
      = stActive.sessions 3) ∧
    ((delete_session_from_account stActive ctxCaller1).storage.sessions 3
      = stActive.sessions 3) ∧
    ((delete_session_from_program stActive 1 ctxSelf).storage.sessions 3
      = stActive.sessions 3) :=
  ⟨(c10_frame exEnv encActions stActive exSd none ctxOk 1 3).1 (by decide),
   (c10_frame exEnv encActions stActive exSd none ctxCaller1 1 3).2.2.1 (by decide),
   (c10_frame exEnv encActions stActive exSd none ctxSelf 1 3).2.2.2.2.1 (by decide)⟩

/-- Claim C2 counterexample: a fully valid creation whose delayed
self-cleanup send fails returns `SendMessageFailed`, yet the just-inserted
session for owner 7 is still in the store — the store is not unchanged. -/
theorem c2_send_failure_keeps_insert_cex :
    (create_session exEnv encActions emptyStore exSd none ctxNoSend).result
      = .error .SendMessageFailed ∧
    emptyStore.sessions 7 = none ∧
    (create_session exEnv encActions emptyStore exSd none ctxNoSend).storage.sessions 7
      = some (createdSession emptyStore.config exSd none ctxNoSend) ∧
    (create_session exEnv encActions emptyStore exSd none ctxNoSend).storage.sessions 7
      ≠ emptyStore.sessions 7 :=
  ⟨rfl, rfl, rfl, by decide⟩

/-- Claim C2 (amended): when validation, the duplicate check and — when a
signature is present — verification all pass and the delayed send fails,
`create_session` returns `SendMessageFailed`, emits no event and schedules
nothing, but the just-inserted session is *not* rolled back: the post store
is exactly the pre store overwritten at the determined owner. -/
theorem c2_send_failure_no_rollback {A : Type} (env : CryptoEnv)
    (encA : A → List Nat) (st : Storage A) (sd : SignatureData A)
    (sig : Option (List Nat)) (ctx : Ctx)
    (h1 : ¬ sd.duration < st.config.minimum_session_duration_ms)
    (h2 : ¬ 2 ^ 32 ≤ rustDivCeil sd.duration st.config.ms_per_block)
    (h3 : sd.allowed_actions.isEmpty = false)
    (h4 : check_if_session_exists st.sessions ctx.block_height
        (createOwner sd sig ctx) = .ok ())
    (h5 : verifyStep env encA sd sig ctx = .ok ())
    (h6 : ctx.sendOk = false) :
    (create_session env encA st sd sig ctx).result
      = .error .SendMessageFailed ∧
    (create_session env encA st sd sig ctx).storage.sessions
      = insertSession st.sessions (createOwner sd sig ctx)
          (createdSession st.config sd sig ctx) ∧
    (create_session env encA st sd sig ctx).events = [] ∧
    (create_session env encA st sd sig ctx).sent = [] := by
  rw [create_session_eq, if_neg h1, if_neg h2, if_neg (by simp [h3])]
  simp only [h4, h5]
  rw [if_pos h6]
  exact ⟨rfl, rfl, rfl, rfl⟩

/-- Witness for the amended C2 at concrete inputs. -/
theorem c2_send_failure_no_rollback_witness :
    (create_session exEnv encActions emptyStore exSd none ctxNoSend).result
      = .error .SendMessageFailed ∧
    (create_session exEnv encActions emptyStore exSd none ctxNoSend).storage.sessions
      = insertSession emptyStore.sessions (createOwner exSd none ctxNoSend)
          (createdSession emptyStore.config exSd none ctxNoSend) ∧
    (create_session exEnv encActions emptyStore exSd none ctxNoSend).events = [] ∧
    (create_session exEnv encActions emptyStore exSd none ctxNoSend).sent = [] :=
  c2_send_failure_no_rollback exEnv encActions emptyStore exSd none ctxNoSend
    (by decide) (by decide) rfl rfl rfl rfl

/-- Claim C3 counterexample: caller 1 already holds an *active* session
(expires at block 60, height is 10), yet a creation request with a too-small
duration fails with `DurationIsSmall`, not `AlreadyHaveActiveSession` — the
duration checks run before the duplicate check. -/
theorem c3_duration_check_precedes_active_check_cex :
    stActive.sessions (createOwner exSdShort none ctxCaller1) = some exActive ∧
    ctxCaller1.block_height < exActive.expires_at_block ∧
    (create_session exEnv encActions stActive exSdShort none ctxCaller1).result
      = .error .DurationIsSmall ∧
    SessionError.DurationIsSmall ≠ SessionError.AlreadyHaveActiveSession :=
  ⟨rfl, by decide, rfl, by decide⟩

/-- Claim C3 (amended): provided the request passes the duration and
allowed-actions validation, a creation whose determined owner holds a
still-active entry fails with `AlreadyHaveActiveSession` leaving the store
untouched; and an expired entry does not block creation — with verification,
send and emit succeeding, the stale entry is overwritten by the new
session. -/
theorem c3_active_session_gates_create {A : Type} (env : CryptoEnv)
    (encA : A → List Nat) (st : Storage A) (sd : SignatureData A)
    (sig : Option (List Nat)) (ctx : Ctx) (s : SessionData A)
    (h1 : ¬ sd.duration < st.config.minimum_session_duration_ms)
    (h2 : ¬ 2 ^ 32 ≤ rustDivCeil sd.duration st.config.ms_per_block)
    (h3 : sd.allowed_actions.isEmpty = false) :
    (st.sessions (createOwner sd sig ctx) = some s →
      ctx.block_height < s.expires_at_block →
      (create_session env encA st sd sig ctx).result
        = .error .AlreadyHaveActiveSession ∧
      (create_session env encA st sd sig ctx).storage.sessions
        = st.sessions ∧
      (create_session env encA st sd sig ctx).events = []) ∧
    (st.sessions (createOwner sd sig ctx) = some s →
      s.expires_at_block ≤ ctx.block_height →
      verifyStep env encA sd sig ctx = .ok () →
      ctx.sendOk = true → ctx.emitOk = true →
      (create_session env encA st sd sig ctx).result = .ok () ∧
      (create_session env encA st sd sig ctx).storage.sessions
          (createOwner sd sig ctx)
        = some (createdSession st.config sd sig ctx)) := by
  constructor
  · intro hsome hlt
    have hc : check_if_session_exists st.sessions ctx.block_height
        (createOwner sd sig ctx) = .error .AlreadyHaveActiveSession := by
      unfold check_if_session_exists
      simp only [hsome]
      rw [if_pos hlt]
    rw [create_session_eq, if_neg h1, if_neg h2, if_neg (by simp [h3])]
    simp only [hc]
    refine ⟨?_, ?_, ?_⟩ <;> trivial
  · intro hsome hle hver hsend hemit
    have hc : check_if_session_exists st.sessions ctx.block_height
        (createOwner sd sig ctx) = .ok () := by
      unfold check_if_session_exists
      simp only [hsome]
      rw [if_neg (Nat.not_lt.mpr hle)]
    rw [create_session_eq, if_neg h1, if_neg h2, if_neg (by simp [h3])]
    simp only [hc, hver]
    rw [if_neg (by simp [hsend]), if_neg (by simp [hemit])]
    exact ⟨rfl, by simp [insertSession]⟩

/-- Witness for the amended C3 at concrete inputs: an active entry for
caller 1 blocks an otherwise-valid creation; an expired entry for the same
caller is overwritten. -/
theorem c3_active_session_gates_create_witness :
    ((create_session exEnv encActions stActive exSd none ctxCaller1).result
        = .error .AlreadyHaveActiveSession ∧
      (create_session exEnv encActions stActive exSd none ctxCaller1).storage.sessions
        = stActive.sessions ∧
      (create_session exEnv encActions stActive exSd none ctxCaller1).events
        = []) ∧
    ((create_session exEnv encActions stExpired exSd none ctxCaller1).result
        = .ok () ∧
      (create_session exEnv encActions stExpired exSd none ctxCaller1).storage.sessions
          (createOwner exSd none ctxCaller1)
        = some (createdSession stExpired.config exSd none ctxCaller1)) :=
  ⟨(c3_active_session_gates_create exEnv encActions stActive exSd none
      ctxCaller1 exActive (by decide) (by decide) rfl).1 rfl (by decide),
   (c3_active_session_gates_create exEnv encActions stExpired exSd none
      ctxCaller1 exExpired (by decide) (by decide) rfl).2 rfl (by decide)
      rfl rfl rfl⟩

/-- Claim C4 counterexample: a fully successful creation at block height
`2^32 - 1` with 60 ticks stores `expires_at_block = 59` — the u32 sum wraps —
not `current_tick + 60 = 4294967355` as the claim requires of every
successful creation. -/
theorem c4_expiry_wrap_cex :
    (create_session exEnv encActions emptyStore exSd none ctxWrap).result
      = .ok () ∧
    ((create_session exEnv encActions emptyStore exSd none ctxWrap).storage.sessions 7).map
        (·.expires_at_block) = some 59 ∧
    rustDivCeil exSd.duration exCfg.ms_per_block = 60 ∧
    ctxWrap.block_height + rustDivCeil exSd.duration exCfg.ms_per_block
      = 4294967355 ∧
    (some 59 : Option Nat) ≠ some 4294967355 :=
  ⟨rfl, rfl, by decide, by decide, by decide⟩

/-- Claim C4 (amended): a successful creation stores
`expires_at_tick = (current_tick + ceil(duration / tick_duration)) mod 2^32`
— equal to the unwrapped sum whenever that sum fits in 32 bits, so in
particular `current_tick + 60` for duration 180000 ms and tick duration
3000 ms away from the wrap boundary — and a request whose tick count is at
least `2^32` (with duration not below the minimum, which is checked first)
fails with `DurationIsLarge` and changes nothing. -/
theorem c4_expiry_arithmetic {A : Type} (env : CryptoEnv) (encA : A → List Nat)
    (st : Storage A) (sd : SignatureData A) (sig : Option (List Nat))
    (ctx : Ctx) :
    ((create_session env encA st sd sig ctx).result = .ok () →
      (create_session env encA st sd sig ctx).storage.sessions
          (createOwner sd sig ctx)
        = some (createdSession st.config sd sig ctx)) ∧
    ((createdSession st.config sd sig ctx).expires_at_block
      = (ctx.block_height + rustDivCeil sd.duration st.config.ms_per_block)
          % 2 ^ 32) ∧
    (ctx.block_height + rustDivCeil sd.duration st.config.ms_per_block
        < 2 ^ 32 →
      (createdSession st.config sd sig ctx).expires_at_block
        = ctx.block_height + rustDivCeil sd.duration st.config.ms_per_block) ∧
    (¬ sd.duration < st.config.minimum_session_duration_ms →
      2 ^ 32 ≤ rustDivCeil sd.duration st.config.ms_per_block →
      (create_session env encA st sd sig ctx).result
        = .error .DurationIsLarge ∧
      (create_session env encA st sd sig ctx).storage.sessions
        = st.sessions ∧
      (create_session env encA st sd sig ctx).events = [] ∧
      (create_session env encA st sd sig ctx).sent = []) := by
  refine ⟨?_, rfl, ?_, ?_⟩
  · intro hok
    rw [create_sessions_of_ok env encA st sd sig ctx hok]
    simp [insertSession]
  · intro hlt
    exact Nat.mod_eq_of_lt hlt
  · intro h1 h2
    rw [create_session_eq, if_neg h1, if_pos h2]
    exact ⟨rfl, rfl, rfl, rfl⟩

/-- Witness for the amended C4: the E2E instance (duration 180000 ms, tick
duration 3000 ms, height 10) stores expiry tick `10 + 60`, and the
400-year duration of the repository's tests is rejected with
`DurationIsLarge`. -/
theorem c4_expiry_arithmetic_witness :
    ((create_session exEnv encActions emptyStore exSd none ctxOk).storage.sessions
        (createOwner exSd none ctxOk)
      = some (createdSession emptyStore.config exSd none ctxOk)) ∧
    ((createdSession emptyStore.config exSd none ctxOk).expires_at_block
      = ctxOk.block_height
        + rustDivCeil exSd.duration emptyStore.config.ms_per_block) ∧
    ((create_session exEnv encActions emptyStore exSdHuge none ctxOk).result
        = .error .DurationIsLarge ∧
      (create_session exEnv encActions emptyStore exSdHuge none ctxOk).storage.sessions
        = emptyStore.sessions ∧
      (create_session exEnv encActions emptyStore exSdHuge none ctxOk).events
        = [] ∧
      (create_session exEnv encActions emptyStore exSdHuge none ctxOk).sent
        = []) :=
  ⟨(c4_expiry_arithmetic exEnv encActions emptyStore exSd none ctxOk).1 rfl,
   (c4_expiry_arithmetic exEnv encActions emptyStore exSd none ctxOk).2.2.1
     (by decide),
   (c4_expiry_arithmetic exEnv encActions emptyStore exSdHuge none ctxOk).2.2.2
     (by decide) (by decide)⟩

/-- A no-signature request whose `key` equals the caller of `ctxOk`. -/
def exSdSelf : SignatureData ActionsForSession := ⟨7, 180000, [.Move]⟩

/-- Claim C5: with a signature present and the request passing the shape and
duplicate checks, the signature is verified against the 32 key bytes of
`signature_data.key` over exactly the payload
`<Bytes> ++ SCALE(SignatureData with key := caller, duration, actions) ++
</Bytes>` under the fixed `substrate` signing context; unparseable signature
bytes give `BadSignature`, unparseable public-key bytes give `BadPublicKey`,
a cryptographic mismatch gives `VerificationFailed` — each leaving the store
unchanged — and on success the session is stored under owner
`signature_data.key` with the requesting caller as its delegate. -/
theorem c5_signature_verification {A : Type} (env : CryptoEnv)
    (encA : A → List Nat) (st : Storage A) (sd : SignatureData A)
    (b : List Nat) (ctx : Ctx)
    (h1 : ¬ sd.duration < st.config.minimum_session_duration_ms)
    (h2 : ¬ 2 ^ 32 ≤ rustDivCeil sd.duration st.config.ms_per_block)
    (h3 : sd.allowed_actions.isEmpty = false)
    (h4 : check_if_session_exists st.sessions ctx.block_height sd.key
        = .ok ()) :
    (env.sigParses b = false →
      (create_session env encA st sd (some b) ctx).result
        = .error .BadSignature ∧
      (create_session env encA st sd (some b) ctx).storage.sessions
        = st.sessions) ∧
    (env.sigParses b = true →
      env.pkParses (toBytesLE 32 sd.key) = false →
      (create_session env encA st sd (some b) ctx).result
        = .error .BadPublicKey ∧
      (create_session env encA st sd (some b) ctx).storage.sessions
        = st.sessions) ∧
    (env.sigParses b = true →
      env.pkParses (toBytesLE 32 sd.key) = true →
      env.verifyOk (toBytesLE 32 sd.key) substrateBytes
          (completeMessage encA ctx.msg_source sd) b = false →
      (create_session env encA st sd (some b) ctx).result
        = .error .VerificationFailed ∧
      (create_session env encA st sd (some b) ctx).storage.sessions
        = st.sessions) ∧
    (env.sigParses b = true →
      env.pkParses (toBytesLE 32 sd.key) = true →
      env.verifyOk (toBytesLE 32 sd.key) substrateBytes
          (completeMessage encA ctx.msg_source sd) b = true →
      ctx.sendOk = true → ctx.emitOk = true →
      (create_session env encA st sd (some b) ctx).result = .ok () ∧
      (create_session env encA st sd (some b) ctx).storage.sessions sd.key
        = some (createdSession st.config sd (some b) ctx) ∧
      (createdSession st.config sd (some b) ctx).key = ctx.msg_source) := by
  have hco : createOwner sd (some b) ctx = sd.key := rfl
  refine ⟨?_, ?_, ?_, ?_⟩
  · intro hsig
    have hv : verifyStep env encA sd (some b) ctx = .error .BadSignature := by
      unfold verifyStep verify
      simp [hsig]
    rw [create_session_eq, if_neg h1, if_neg h2, if_neg (by simp [h3]), hco]
    simp only [h4, hv]
    refine ⟨?_, ?_⟩ <;> trivial
  · intro hsig hpk
    have hv : verifyStep env encA sd (some b) ctx = .error .BadPublicKey := by
      unfold verifyStep verify
      simp [hsig, hpk]
    rw [create_session_eq, if_neg h1, if_neg h2, if_neg (by simp [h3]), hco]
    simp only [h4, hv]
    refine ⟨?_, ?_⟩ <;> trivial
  · intro hsig hpk hvo
    have hv : verifyStep env encA sd (some b) ctx
        = .error .VerificationFailed := by
      unfold verifyStep verify
      simp [hsig, hpk, hvo]
    rw [create_session_eq, if_neg h1, if_neg h2, if_neg (by simp [h3]), hco]
    simp only [h4, hv]
    refine ⟨?_, ?_⟩ <;> trivial
  · intro hsig hpk hvo hsend hemit
    have hv : verifyStep env encA sd (some b) ctx = .ok () := by
      unfold verifyStep verify
      simp [hsig, hpk, hvo]
    rw [create_session_eq, if_neg h1, if_neg h2, if_neg (by simp [h3]), hco]
    simp only [h4, hv]
    rw [if_neg (by simp [hsend]), if_neg (by simp [hemit])]
    refine ⟨rfl, ?_, rfl⟩
    show insertSession st.sessions sd.key
        (createdSession st.config sd (some b) ctx) sd.key = _
    simp [insertSession]

/-- Witness for C5 at concrete inputs: each of the three failure
environments produces its error with the store unchanged, and the accepting
environment stores the session under the request's key with the caller as
delegate. -/
theorem c5_signature_verification_witness :
    ((create_session exEnvBadSig encActions emptyStore exSd (some [1, 2]) ctxOk).result
        = .error .BadSignature ∧
      (create_session exEnvBadSig encActions emptyStore exSd (some [1, 2]) ctxOk).storage.sessions
        = emptyStore.sessions) ∧
    ((create_session exEnvBadKey encActions emptyStore exSd (some [1, 2]) ctxOk).result
        = .error .BadPublicKey ∧
      (create_session exEnvBadKey encActions emptyStore exSd (some [1, 2]) ctxOk).storage.sessions
        = emptyStore.sessions) ∧
    ((create_session exEnvNoVerify encActions emptyStore exSd (some [1, 2]) ctxOk).result
        = .error .VerificationFailed ∧
      (create_session exEnvNoVerify encActions emptyStore exSd (some [1, 2]) ctxOk).storage.sessions
        = emptyStore.sessions) ∧
    ((create_session exEnv encActions emptyStore exSd
          (some (List.replicate 64 0)) ctxOk).result = .ok () ∧
      (create_session exEnv encActions emptyStore exSd
          (some (List.replicate 64 0)) ctxOk).storage.sessions exSd.key
        = some (createdSession emptyStore.config exSd
            (some (List.replicate 64 0)) ctxOk) ∧
      (createdSession emptyStore.config exSd
          (some (List.replicate 64 0)) ctxOk).key = ctxOk.msg_source) :=
  ⟨(c5_signature_verification exEnvBadSig encActions emptyStore exSd [1, 2]
      ctxOk (by decide) (by decide) rfl rfl).1 rfl,
   (c5_signature_verification exEnvBadKey encActions emptyStore exSd [1, 2]
      ctxOk (by decide) (by decide) rfl rfl).2.1 rfl rfl,
   (c5_signature_verification exEnvNoVerify encActions emptyStore exSd [1, 2]
      ctxOk (by decide) (by decide) rfl rfl).2.2.1 rfl rfl rfl,
   (c5_signature_verification exEnv encActions emptyStore exSd
      (List.replicate 64 0) ctxOk (by decide) (by decide) rfl rfl).2.2.2
      (by rfl) rfl rfl rfl rfl⟩

/-- Claim C9: with no signature supplied, `create_session` can never fail
with `BadSignature`, `BadPublicKey` or `VerificationFailed`, and on success
the request's `key` field is stored verbatim as the session's delegate —
also when it equals the caller's own account. -/
theorem c9_no_signature_no_crypto {A : Type} (env : CryptoEnv)
    (encA : A → List Nat) (st : Storage A) (sd : SignatureData A)
    (ctx : Ctx) :
    ((create_session env encA st sd none ctx).result
        ≠ .error .BadSignature ∧
      (create_session env encA st sd none ctx).result
        ≠ .error .BadPublicKey ∧
      (create_session env encA st sd none ctx).result
        ≠ .error .VerificationFailed) ∧
    ((create_session env encA st sd none ctx).result = .ok () →
      (create_session env encA st sd none ctx).storage.sessions
          ctx.msg_source
        = some (createdSession st.config sd none ctx) ∧
      (createdSession st.config sd none ctx).key = sd.key) := by
  constructor
  · rw [create_session_eq]
    by_cases h1 : sd.duration < st.config.minimum_session_duration_ms
    · rw [if_pos h1]; refine ⟨?_, ?_, ?_⟩ <;> simp
    rw [if_neg h1]
    by_cases h2 : 2 ^ 32 ≤ rustDivCeil sd.duration st.config.ms_per_block
    · rw [if_pos h2]; refine ⟨?_, ?_, ?_⟩ <;> simp
    rw [if_neg h2]
    by_cases h3 : sd.allowed_actions.isEmpty
    · rw [if_pos h3]; refine ⟨?_, ?_, ?_⟩ <;> simp
    rw [if_neg h3]
    cases hc : check_if_session_exists st.sessions ctx.block_height
        (createOwner sd none ctx) with
    | error e =>
        obtain ⟨he, -⟩ := check_error_eq _ _ _ _ hc
        subst he
        refine ⟨?_, ?_, ?_⟩ <;> simp
    | ok u =>
        simp only [verifyStep]
        by_cases h6 : ctx.sendOk = false
        · rw [if_pos h6]; refine ⟨?_, ?_, ?_⟩ <;> simp
        rw [if_neg h6]
        by_cases h7 : ctx.emitOk = false
        · rw [if_pos h7]; refine ⟨?_, ?_, ?_⟩ <;> simp
        · rw [if_neg h7]; refine ⟨?_, ?_, ?_⟩ <;> simp
  · intro hok
    constructor
    · rw [create_sessions_of_ok env encA st sd none ctx hok]
      simp [insertSession, createOwner]
    · rfl

/-- Witness for C9 at a concrete input whose request `key` equals the
caller itself. -/
theorem c9_no_signature_no_crypto_witness :
    (create_session exEnv encActions emptyStore exSdSelf none ctxOk).result
      ≠ .error .BadSignature ∧
    (create_session exEnv encActions emptyStore exSdSelf none ctxOk).storage.sessions
        ctxOk.msg_source
      = some (createdSession emptyStore.config exSdSelf none ctxOk) ∧
    (createdSession emptyStore.config exSdSelf none ctxOk).key
      = exSdSelf.key ∧
    exSdSelf.key = ctxOk.msg_source :=
  ⟨(c9_no_signature_no_crypto exEnv encActions emptyStore exSdSelf ctxOk).1.1,
   ((c9_no_signature_no_crypto exEnv encActions emptyStore exSdSelf ctxOk).2
      rfl).1,
   ((c9_no_signature_no_crypto exEnv encActions emptyStore exSdSelf ctxOk).2
      rfl).2,
   rfl⟩

/-- Claim C8 counterexample: with empty `allowed_actions` and a duration
below the minimum, creation fails with `DurationIsSmall`, not
`ThereAreNoAllowedMessages` — the error is *not* independent of the
duration. -/
theorem c8_empty_actions_error_depends_on_duration_cex :
    exSdEmpty.allowed_actions = [] ∧
    (create_session exEnv encActions emptyStore exSdEmpty none ctxOk).result
      = .error .DurationIsSmall ∧
    SessionError.DurationIsSmall ≠ SessionError.ThereAreNoAllowedMessages :=
  ⟨rfl, rfl, by decide⟩

/-- Claim C8 (amended): every store state reachable from the empty store
holds only sessions with non-empty `allowed_actions`; and a creation request
with empty `allowed_actions` whose duration passes the two duration checks
(which run first) fails with `ThereAreNoAllowedMessages` and stores
nothing. -/
theorem c8_allowed_actions_invariant {A : Type} (env : CryptoEnv)
    (encA : A → List Nat) (cfg : Config) :
    (∀ st : Storage A, Reachable env encA cfg st →
      ∀ a s, st.sessions a = some s → s.allowed_actions ≠ []) ∧
    (∀ (st : Storage A) (sd : SignatureData A) (sig : Option (List Nat))
        (ctx : Ctx),
      ¬ sd.duration < st.config.minimum_session_duration_ms →
      ¬ 2 ^ 32 ≤ rustDivCeil sd.duration st.config.ms_per_block →
      sd.allowed_actions = [] →
      (create_session env encA st sd sig ctx).result
        = .error .ThereAreNoAllowedMessages ∧
      (create_session env encA st sd sig ctx).storage.sessions
        = st.sessions) := by
  constructor
  · intro st h
    induction h with
    | init => intro a s hs; cases hs
    | create st sd sig ctx hr ih =>
        intro a s hs
        rcases create_sessions_cases env encA st sd sig ctx a with
          heq | ⟨heq, hown, hne⟩
        · rw [heq] at hs; exact ih a s hs
        · rw [heq] at hs
          injection hs with hs2
          rw [← hs2]
          exact isEmpty_false_ne_nil _ hne
    | delAccount st ctx hr ih =>
        intro a s hs
        rw [delete_account_sessions_eq] at hs
        by_cases ha : a = ctx.msg_source
        · rw [if_pos ha] at hs; cases hs
        · rw [if_neg ha] at hs; exact ih a s hs
    | delProgram st acct ctx hr ih =>
        intro a s hs
        rw [delete_program_sessions_eq] at hs
        by_cases hp : ctx.msg_source = ctx.program_id
        · rw [if_pos hp] at hs
          by_cases ha : a = acct
          · rw [if_pos ha] at hs; cases hs
          · rw [if_neg ha] at hs; exact ih a s hs
        · rw [if_neg hp] at hs; exact ih a s hs
  · intro st sd sig ctx h1 h2 hempty
    have h3 : sd.allowed_actions.isEmpty = true := by rw [hempty]; rfl
    rw [create_session_eq, if_neg h1, if_neg h2, if_pos h3]
    exact ⟨rfl, rfl⟩

/-- Witness for the amended C8: a session stored by an actual creation from
the empty store has non-empty actions, and an empty-actions request with a
valid duration is rejected with `ThereAreNoAllowedMessages`. -/
theorem c8_allowed_actions_invariant_witness :
    (createdSession exCfg exSd none ctxOk).allowed_actions ≠ [] ∧
    ((create_session exEnv encActions emptyStore exSdEmptyOkDur none ctxOk).result
        = .error .ThereAreNoAllowedMessages ∧
      (create_session exEnv encActions emptyStore exSdEmptyOkDur none ctxOk).storage.sessions
        = emptyStore.sessions) :=
  ⟨(c8_allowed_actions_invariant exEnv encActions exCfg).1
      (create_session exEnv encActions ⟨fun _ => none, exCfg⟩ exSd none ctxOk).storage
      (Reachable.create _ exSd none ctxOk Reachable.init)
      7 (createdSession exCfg exSd none ctxOk) rfl,
   (c8_allowed_actions_invariant exEnv encActions exCfg).2
      emptyStore exSdEmptyOkDur none ctxOk (by decide) (by decide) rfl⟩

end SessionService
